import Mathlib

/-!
Verification development for the math-problem-generator repository.

The repository's source (`src/backend/src/types.ts`) consists of type
declarations for a Generation–Solving–Validation engine; the engine's
behaviour is given by the design document's contracts.  The Express
server embedded in `src/README.md` contributes the `/health` endpoint
and the global error-handling middleware.  This file shallowly embeds
the data model from `types.ts`, models the engine operations from the
design document where the repository supplies only their contracts, and
embeds the server handlers from their code.
-/

namespace MathProbGen

/-- From `src/backend/src/types.ts` (`enum ProblemType`). -/
inductive ProblemType where
  | ARITHMETIC | ALGEBRA | GEOMETRY | TRIGONOMETRY | CALCULUS
  | STATISTICS | PROBABILITY | LINEAR_ALGEBRA | WORD_PROBLEM | MIXED
deriving DecidableEq

/-- From `src/backend/src/types.ts` (`enum DifficultyLevel`). -/
inductive DifficultyLevel where
  | BEGINNER | INTERMEDIATE | ADVANCED | EXPERT
deriving DecidableEq

/-- From `src/backend/src/types.ts` (`enum AnswerFormat`). -/
inductive AnswerFormat where
  | TEXT | NUMERIC | EQUATION | MULTIPLE_CHOICE
  | SHORT_ANSWER | LONG_ANSWER | MATRIX | GRAPH
deriving DecidableEq

/-- From `src/backend/src/types.ts` (`enum GenerationMethod`). -/
inductive GenerationMethod where
  | TEMPLATE_BASED | AI_GENERATED | USER_CREATED | IMPORTED
deriving DecidableEq

/-- The source's `Answer.value: string | number | boolean`
(`src/backend/src/types.ts`); numbers are modelled as rationals. -/
inductive AnswerValue where
  | str (s : String)
  | num (q : ℚ)
  | boolean (b : Bool)
deriving DecidableEq

/-- From `src/backend/src/types.ts` (`interface Answer`): value, format,
optional tolerance (numeric answers) and case sensitivity (text answers). -/
structure Answer where
  value : AnswerValue
  format : AnswerFormat
  tolerance : Option ℚ := none
  caseSensitive : Option Bool := none
deriving DecidableEq

/-- From `src/backend/src/types.ts` (`interface ProblemConfig`). -/
structure ProblemConfig where
  ptype : ProblemType
  difficulty : DifficultyLevel
  quantity : Nat
  includeSteps : Bool := false
  includeHints : Bool := false
  allowMultipleChoice : Bool := false
deriving DecidableEq

/-- From `src/backend/src/types.ts` (`interface AnswerValidationResult`). -/
structure AnswerValidationResult where
  isCorrect : Bool
  score : ℚ
  feedback : String
  explanation : Option String := none
  correctAnswer : Answer
  suggestions : List String := []
deriving DecidableEq

/-- Modelled from the spec: §4.1 numeric equality — the repository only
declares the `Answer` contract, so the comparison itself is taken from the
design document: two numbers agree when `|a - b| ≤ tolerance`. -/
def numericCorrect (correct submitted tolerance : ℚ) : Bool :=
  decide (|submitted - correct| ≤ tolerance)

/-- Maximum score awarded by the Validator for a fully correct answer. -/
def maxScore : ℚ := 100

/-- Modelled from the spec: §4.4 NUMERIC scoring — the score linearly
decays with the normalized deviation beyond the tolerance down to 0 and
is never negative.  The deviation is normalized by `|correct| + 1`. -/
def numericScore (correct submitted tolerance : ℚ) : ℚ :=
  let dev := |submitted - correct|
  if dev ≤ tolerance then maxScore
  else
    let normDev := (dev - tolerance) / (|correct| + 1)
    max 0 (maxScore * (1 - normDev))

/-- Result the Validator returns when a submission cannot be graded at
all (malformed expression): modelled from the spec §4.1/§7, a
`ParseError` is surfaced as the verdict "ungradable", not "incorrect". -/
def ungradableResult (correct : Answer) : AnswerValidationResult :=
  { isCorrect := false
    score := 0
    feedback := "ungradable"
    explanation := some "ParseError: the submitted expression could not be parsed"
    correctAnswer := correct }

/-- Structured mathematical expression underlying the source's
`MathExpression.original` string (`src/backend/src/types.ts`); the
Canonical Value Model works over this abstract syntax. -/
inductive Expr where
  | num (q : ℚ)
  | varX
  | add (e₁ e₂ : Expr)
  | sub (e₁ e₂ : Expr)
  | mul (e₁ e₂ : Expr)
deriving DecidableEq

/-- Splits a character list at every occurrence of `c` (used to break an
equation string at the equals sign). -/
def splitChar (c : Char) : List Char → List (List Char)
  | [] => [[]]
  | d :: rest =>
    let r := splitChar c rest
    if d = c then [] :: r
    else
      match r with
      | [] => [[d]]
      | h :: t => (d :: h) :: t

/-- Reads a non-empty all-digit character list as a natural number. -/
def digitsToNat (cs : List Char) : Option Nat :=
  if cs = [] then none
  else cs.foldl (fun acc c =>
    acc.bind fun n => if c.isDigit then some (10 * n + (c.toNat - 48)) else none)
    (some 0)

/-- Modelled from the spec: one side of an equation submitted as text —
the variable `x`, or an (optionally negated) integer literal; spaces are
ignored; anything else is malformed. -/
def parseSide (cs : List Char) : Option Expr :=
  let cs := cs.filter (fun c => c != ' ')
  match cs with
  | ['x'] => some Expr.varX
  | '-' :: rest => (digitsToNat rest).map (fun n => Expr.num (-(n : ℚ)))
  | _ => (digitsToNat cs).map (fun n => Expr.num (n : ℚ))

/-- Modelled from the spec: §4.1 — an equation answer is a string
`lhs = rhs`; a string without exactly one equals sign, or with a side
that is neither `x` nor an integer literal, is a malformed expression
(`ParseError`). -/
def parseEquation (s : String) : Option (Expr × Expr) :=
  match splitChar '=' s.data with
  | [l, r] =>
    match parseSide l, parseSide r with
    | some el, some er => some (el, er)
    | _, _ => none
  | _ => none

/-- Interprets an expression as a linear combination `a·x + b`,
returning `(a, b)`; `none` on a nonlinear product. -/
def linCombo : Expr → Option (ℚ × ℚ)
  | Expr.num n => some (0, n)
  | Expr.varX => some (1, 0)
  | Expr.add e₁ e₂ => do
    let p₁ ← linCombo e₁
    let p₂ ← linCombo e₂
    pure (p₁.1 + p₂.1, p₁.2 + p₂.2)
  | Expr.sub e₁ e₂ => do
    let p₁ ← linCombo e₁
    let p₂ ← linCombo e₂
    pure (p₁.1 - p₂.1, p₁.2 - p₂.2)
  | Expr.mul e₁ e₂ =>
    match linCombo e₁, linCombo e₂ with
    | some p₁, some p₂ =>
      if p₁.1 = 0 then some (p₁.2 * p₂.1, p₁.2 * p₂.2)
      else if p₂.1 = 0 then some (p₂.2 * p₁.1, p₂.2 * p₁.2)
      else none
    | _, _ => none

/-- Modelled from the spec: §4.1 symbolic equality — the normalized
canonical form of the linear equation `lhs = rhs`.  Everything is moved
to one side (`a·x + b = 0`) and scaled: a solvable equation becomes
`(1, -solution)`, a vacuous one `(0, 0)`, an inconsistent one `(0, 1)`.
Equivalence of equations is equality of canonical forms, not string
comparison. -/
def canonEquation (lr : Expr × Expr) : Option (ℚ × ℚ) := do
  let p₁ ← linCombo lr.1
  let p₂ ← linCombo lr.2
  let a := p₁.1 - p₂.1
  let b := p₁.2 - p₂.2
  if a = 0 then
    if b = 0 then pure (0, 0) else pure (0, 1)
  else
    pure (1, b / a)

/-- Normalizes an equation answer string: parse, then canonicalize. -/
def normalizeEquation (s : String) : Option (ℚ × ℚ) :=
  (parseEquation s).bind canonEquation

/-- Extracts the string payload of an answer value, if it is one. -/
def getStr : AnswerValue → Option String
  | AnswerValue.str s => some s
  | _ => none

/-- Grading result for a plain right-or-wrong comparison: full score
when the equivalence holds, zero otherwise. -/
def gradeBool (correct : Answer) (ok : Bool) : AnswerValidationResult :=
  { isCorrect := ok
    score := if ok then maxScore else 0
    feedback := if ok then "correct" else "incorrect"
    correctAnswer := correct }

/-- Grading result for the NUMERIC format: the §4.1 tolerance rule with
the linear score decay. -/
def gradeNumeric (correct : Answer) (c s tol : ℚ) : AnswerValidationResult :=
  let ok := numericCorrect c s tol
  { isCorrect := ok
    score := numericScore c s tol
    feedback := if ok then "correct" else "incorrect"
    correctAnswer := correct }

/-- Trimmed text comparison, case-insensitive unless `caseSensitive`. -/
def textMatches (caseSensitive : Bool) (c s : String) : Bool :=
  if caseSensitive then c.trim == s.trim
  else c.trim.toLower == s.trim.toLower

/-- Modelled from the spec: §4.4 Validator —
`validate(correct, submitted)` dispatches on the canonical answer's
format.  NUMERIC applies the §4.1 tolerance rule with the linear score
decay; EQUATION compares normalized canonical forms and surfaces a
`ParseError` on a malformed expression as "ungradable"; TEXT and
SHORT_ANSWER compare trimmed text, case-insensitively unless
`caseSensitive`; MULTIPLE_CHOICE and the remaining formats require exact
identity of values. -/
def validateAnswer (correct submitted : Answer) : AnswerValidationResult :=
  match correct.format with
  | AnswerFormat.NUMERIC =>
    match correct.value, submitted.value with
    | AnswerValue.num c, AnswerValue.num s =>
      gradeNumeric correct c s (correct.tolerance.getD 0)
    | _, _ => ungradableResult correct
  | AnswerFormat.EQUATION =>
    match (getStr correct.value).bind normalizeEquation,
          (getStr submitted.value).bind normalizeEquation with
    | some n₁, some n₂ => gradeBool correct (decide (n₁ = n₂))
    | _, _ => ungradableResult correct
  | AnswerFormat.TEXT | AnswerFormat.SHORT_ANSWER =>
    match getStr correct.value, getStr submitted.value with
    | some c, some s =>
      gradeBool correct (textMatches (correct.caseSensitive.getD false) c s)
    | _, _ => ungradableResult correct
  | _ => gradeBool correct (correct.value == submitted.value)

/-- A NUMERIC answer with the given value and tolerance. -/
def numAns (q : ℚ) (t : Option ℚ) : Answer :=
  { value := AnswerValue.num q, format := AnswerFormat.NUMERIC, tolerance := t }

/-- An EQUATION answer carrying the given expression string. -/
def eqAns (s : String) : Answer :=
  { value := AnswerValue.str s, format := AnswerFormat.EQUATION }

/-- From `src/backend/src/types.ts` (`interface Problem`), restricted to
the fields the engine contracts constrain; `equation` carries the
structured expression behind the source's string field. -/
structure Problem where
  ptype : ProblemType
  difficulty : DifficultyLevel
  problemStatement : String
  equation : Option Expr := none
  correctAnswer : Answer
  alternatives : Option (List Answer) := none
deriving DecidableEq

/-- From `src/backend/src/types.ts` (`interface GeneratedProblem`),
as composition per the design document §9: a `Problem` plus generation
provenance (`generationMethod`, recorded `seed`). -/
structure GeneratedProblem where
  problem : Problem
  generationMethod : GenerationMethod
  seed : Option Nat := none
deriving DecidableEq

/-- From `src/backend/src/types.ts` (`interface MathExpression`). -/
structure MathExpression where
  original : String
  simplified : Option String := none
  evaluation : Option ℚ := none
deriving DecidableEq

/-- From `src/backend/src/types.ts` (`interface MathStep`). -/
structure MathStep where
  stepNumber : Nat
  expression : MathExpression
  operation : String
  justification : Option String := none
deriving DecidableEq

/-- From `src/backend/src/types.ts` (`interface MathSolution`). -/
structure MathSolution where
  steps : List MathStep
  finalAnswer : MathExpression
  method : Option String := none
deriving DecidableEq

/-- The design document's error taxonomy (§7). -/
inductive EngineError where
  | UnsupportedConfigError
  | SolutionMismatchError
  | ParseError
  | GenerationTimeoutError
  | ValidationAmbiguousError
deriving DecidableEq

/-- Linear congruential step of the engine's deterministic PRNG
(modelled from the spec: the seed is an opaque reproducibility key and
generation is a pure function of it). -/
def lcgNext (s : Nat) : Nat :=
  (1103515245 * s + 12345) % 4294967296

/-- Modelled from the spec: §4.2 difficulty mapping — each difficulty
level bounds the operand magnitude. -/
def operandBound : DifficultyLevel → Nat
  | DifficultyLevel.BEGINNER => 10
  | DifficultyLevel.INTERMEDIATE => 100
  | DifficultyLevel.ADVANCED => 1000
  | DifficultyLevel.EXPERT => 10000

/-- Places the correct choice at position `k` among the distractors
(multiple-choice alternatives are the distractors plus the one correct
choice). -/
def mcChoices (c : Answer) (ds : List Answer) (k : Nat) : List Answer :=
  ds.take k ++ c :: ds.drop k

/-- Modelled from the spec: §4.2 multiple-choice construction — the
distractors are plausible common-mistake variants of the correct value
(off-by-one in both directions and a place-value slip), of the same
`AnswerFormat`, and none equivalence-equal to the correct answer. -/
def mkDistractors (c : Answer) (ans : ℚ) : List Answer :=
  [ { c with value := AnswerValue.num (ans + 1) }
  , { c with value := AnswerValue.num (ans - 1) }
  , { c with value := AnswerValue.num (ans + 10) } ]

/-- Modelled from the spec: §4.2 template-based Generator — a pure
function from `(config, seed)` to a `Problem` with its canonical
`Answer`.  An arithmetic addition problem: the PRNG draws two operands
within the difficulty's bound, the canonical answer is their exact sum
(tolerance 0), and, when `allowMultipleChoice`, the alternatives are the
correct choice inserted among the distractors at a PRNG-chosen spot. -/
def generateCore (config : ProblemConfig) (seed : Nat) : Problem :=
  let r₁ := lcgNext seed
  let r₂ := lcgNext r₁
  let r₃ := lcgNext r₂
  let bound := operandBound config.difficulty
  let a := r₁ % bound + 1
  let b := r₂ % bound + 1
  let ansQ : ℚ := (a : ℚ) + (b : ℚ)
  let correct : Answer :=
    { value := AnswerValue.num ansQ
      format := AnswerFormat.NUMERIC
      tolerance := some 0 }
  { ptype := config.ptype
    difficulty := config.difficulty
    problemStatement :=
      "Compute " ++ toString a ++ " + " ++ toString b
    equation := some (Expr.add (Expr.num (a : ℚ)) (Expr.num (b : ℚ)))
    correctAnswer := correct
    alternatives :=
      if config.allowMultipleChoice then
        some (mcChoices correct (mkDistractors correct ansQ) (r₃ % 4))
      else none }

/-- Modelled from the spec: §4.2 — `generate(config, seed)`; when the
seed is absent the engine mints the fresh seed `freshSeed` and records
it on the result's provenance so the problem remains reproducible. -/
def generate (config : ProblemConfig) (seed : Option Nat) (freshSeed : Nat) :
    GeneratedProblem :=
  let s := seed.getD freshSeed
  { problem := generateCore config s
    generationMethod := GenerationMethod.TEMPLATE_BASED
    seed := some s }

/-- Evaluates a closed expression from first principles; `none` when a
variable remains. -/
def evalExpr : Expr → Option ℚ
  | Expr.num q => some q
  | Expr.varX => none
  | Expr.add e₁ e₂ => do pure ((← evalExpr e₁) + (← evalExpr e₂))
  | Expr.sub e₁ e₂ => do pure ((← evalExpr e₁) - (← evalExpr e₂))
  | Expr.mul e₁ e₂ => do pure ((← evalExpr e₁) * (← evalExpr e₂))

/-- Modelled from the spec: §4.3 Solver — generator-independent: it
reads only the problem's `equation`, recomputes the value from first
principles and returns the step trace with the final answer. -/
def solve (p : Problem) : Option MathSolution :=
  match p.equation with
  | none => none
  | some e =>
    (evalExpr e).map fun v =>
      { steps :=
          [ { stepNumber := 1
              expression := { original := p.problemStatement }
              operation := "evaluate"
              justification := some "arithmetic evaluation" } ]
        finalAnswer := { original := p.problemStatement, evaluation := some v }
        method := some "direct evaluation" }

/-- Whether a solver result is equivalence-equal (§4.1) to the canonical
answer: the recomputed value must satisfy the numeric rule against the
canonical numeric answer at its declared tolerance. -/
def answersMatch (m : MathExpression) (a : Answer) : Bool :=
  match m.evaluation, a.value with
  | some v, AnswerValue.num c => numericCorrect c v (a.tolerance.getD 0)
  | _, _ => false

/-- Modelled from the spec: §4.3/§7 — before publication every
generated problem is cross-checked: the Solver recomputes the answer
and compares it with the generator-supplied `correctAnswer`; a mismatch
raises `SolutionMismatchError` and the problem is not published. -/
def crossCheck (p : Problem) : Except EngineError Problem :=
  match solve p with
  | none => Except.error EngineError.ParseError
  | some sol =>
    if answersMatch sol.finalAnswer p.correctAnswer then Except.ok p
    else Except.error EngineError.SolutionMismatchError

/-- Whether the cross-check lets the problem be published. -/
def published (p : Problem) : Bool :=
  match crossCheck p with
  | Except.ok _ => true
  | Except.error _ => false

/-- Modelled from the spec: §4.5 — the states of a `ProblemAttempt`
(the source's `ProblemAttempt` in `src/backend/src/types.ts` records
only data fields, the state machine is given by the design document). -/
inductive AttemptState where
  | Created | InProgress | Completed | Abandoned
deriving DecidableEq

/-- The attempt data the §4.5 state machine acts on: its state, how
many of its problems already have a submitted answer, and how many
problems the attempt holds in total. -/
structure ProblemAttempt where
  state : AttemptState
  answered : Nat
  total : Nat
deriving DecidableEq

/-- Events driving the §4.5 state machine. -/
inductive AttemptEvent where
  | submitAnswer
  | timeLimitElapsed
  | sessionExpired
deriving DecidableEq

/-- Modelled from the spec: §4.5 transitions —
`Created → InProgress` on the first `StudentAnswer` submission;
`InProgress → Completed` when all problems have a submitted answer or
the `timeLimit` elapses; `InProgress → Abandoned` on session expiry
with incomplete answers; terminal states are immutable. -/
def stepAttempt (a : ProblemAttempt) (e : AttemptEvent) : ProblemAttempt :=
  match a.state, e with
  | AttemptState.Created, AttemptEvent.submitAnswer =>
    let ans := a.answered + 1
    { a with
      state := if a.total ≤ ans then AttemptState.Completed
               else AttemptState.InProgress
      answered := ans }
  | AttemptState.Created, _ => a
  | AttemptState.InProgress, AttemptEvent.submitAnswer =>
    let ans := a.answered + 1
    { a with
      state := if a.total ≤ ans then AttemptState.Completed
               else AttemptState.InProgress
      answered := ans }
  | AttemptState.InProgress, AttemptEvent.timeLimitElapsed =>
    { a with state := AttemptState.Completed }
  | AttemptState.InProgress, AttemptEvent.sessionExpired =>
    if a.answered < a.total then { a with state := AttemptState.Abandoned }
    else a
  | AttemptState.Completed, _ => a
  | AttemptState.Abandoned, _ => a

/-- From `src/README.md` (`interface HealthCheckResponse`): the mongodb
sub-object of the health body. -/
structure HealthMongo where
  status : String
  message : String
deriving DecidableEq

/-- From `src/README.md` (`interface HealthCheckResponse`), without the
free-running `timestamp`/`uptime` fields, which are passed through. -/
structure HealthCheckResponse where
  status : String
  timestamp : String
  uptime : ℚ
  mongodb : HealthMongo
  environment : String
deriving DecidableEq

/-- From `src/README.md` (`app.get('/health')`): the handler reads
`mongoose.connection.readyState`, reports `connected` exactly when it
is 1, and answers 200/`healthy` or 503/`unhealthy` accordingly. -/
def healthHandler (readyState : Nat) (timestamp : String) (uptime : ℚ)
    (env : Option String) : Nat × HealthCheckResponse :=
  let mongoStatus := if readyState = 1 then "connected" else "disconnected"
  let mongoMessage :=
    if mongoStatus = "connected" then "MongoDB connection is active"
    else "MongoDB connection is inactive"
  let body : HealthCheckResponse :=
    { status := if mongoStatus = "connected" then "healthy" else "unhealthy"
      timestamp := timestamp
      uptime := uptime
      mongodb := { status := mongoStatus, message := mongoMessage }
      environment := env.getD "development" }
  let statusCode := if mongoStatus = "connected" then 200 else 503
  (statusCode, body)

/-- From `src/README.md` (`interface CustomError`): name and message
from `Error`, plus the optional `statusCode` and the optional mongoose
error `code` (numeric at runtime, e.g. 11000 for duplicate keys). -/
structure CustomError where
  name : String
  message : String
  statusCode : Option Int := none
  code : Option Int := none
deriving DecidableEq

/-- Body shape shared by every branch of the global error handler in
`src/README.md` (the development-only `stack` field is omitted). -/
structure ErrorBody where
  success : Bool
  error : String
  message : String
deriving DecidableEq

/-- JavaScript `a || b` on an optional number: the default is taken when
the value is absent or falsy (0). -/
def jsNumOr (o : Option Int) (d : Int) : Int :=
  match o with
  | some n => if n = 0 then d else n
  | none => d

/-- JavaScript `a || b` on a string: the default is taken when the
string is falsy (empty). -/
def jsStrOr (s d : String) : String :=
  if s = "" then d else s

/-- From `src/README.md` (global error handling middleware): computes
`statusCode = err.statusCode || 500`; answers 400/`Validation Error`
when `err.code === 11000` (duplicate field) or `err.name === 'CastError'`
(invalid format); otherwise the default response with `statusCode`. -/
def errorHandler (err : CustomError) : Int × ErrorBody :=
  let statusCode := jsNumOr err.statusCode 500
  if err.code = some 11000 then
    (400, { success := false
            error := "Validation Error"
            message := "Duplicate field value entered" })
  else if err.name = "CastError" then
    (400, { success := false
            error := "Validation Error"
            message := "Invalid data format" })
  else
    (statusCode, { success := false
                   error := jsStrOr err.name "Internal Server Error"
                   message := jsStrOr err.message "An unexpected error occurred" })

/-! ## Helper lemmas -/

theorem numericCorrect_self (q t : ℚ) (ht : 0 ≤ t) :
    numericCorrect q q t = true := by
  simp [numericCorrect, ht]

theorem numericCorrect_zero_iff (q s : ℚ) :
    numericCorrect q s 0 = true ↔ s = q := by
  simp [numericCorrect, abs_nonpos_iff, sub_eq_zero]

theorem numericScore_nonneg (c s t : ℚ) : 0 ≤ numericScore c s t := by
  by_cases h : |s - c| ≤ t
  · simp [numericScore, h, maxScore]
  · simp only [numericScore, h, if_neg, if_false]
    exact le_max_left 0 _

theorem numericScore_self (c t : ℚ) (ht : 0 ≤ t) :
    numericScore c c t = maxScore := by
  unfold numericScore
  simp [ht]

theorem abs_add_one_pos (c : ℚ) : 0 < |c| + 1 :=
  lt_of_lt_of_le one_pos (le_add_of_nonneg_left (abs_nonneg c))

theorem numericScore_anti (c s₁ s₂ t : ℚ) (h : |s₁ - c| ≤ |s₂ - c|) :
    numericScore c s₂ t ≤ numericScore c s₁ t := by
  have hpos : (0 : ℚ) < |c| + 1 := abs_add_one_pos c
  simp only [numericScore, maxScore]
  by_cases h₂ : |s₂ - c| ≤ t
  · have h₁ : |s₁ - c| ≤ t := le_trans h h₂
    simp [h₁, h₂]
  · by_cases h₁ : |s₁ - c| ≤ t
    · simp only [if_pos h₁, if_neg h₂]
      apply max_le (by norm_num)
      have hnd : 0 ≤ (|s₂ - c| - t) / (|c| + 1) := by
        apply div_nonneg _ (le_of_lt hpos)
        have := lt_of_not_ge h₂
        linarith
      nlinarith
    · simp only [if_neg h₁, if_neg h₂]
      apply max_le_max (le_refl 0)
      have hdiv : (|s₁ - c| - t) / (|c| + 1) ≤ (|s₂ - c| - t) / (|c| + 1) :=
        (div_le_div_iff_of_pos_right hpos).mpr (by linarith)
      nlinarith

theorem numericScore_far_zero (c s t : ℚ) (h : t + (|c| + 1) ≤ |s - c|) :
    numericScore c s t = 0 := by
  have hpos : (0 : ℚ) < |c| + 1 := abs_add_one_pos c
  have hgt : ¬ |s - c| ≤ t := by
    intro hle
    nlinarith
  simp only [numericScore, maxScore, if_neg hgt]
  have hnd : (1 : ℚ) ≤ (|s - c| - t) / (|c| + 1) :=
    (le_div_iff₀ hpos).mpr (by linarith)
  have : (100 : ℚ) * (1 - (|s - c| - t) / (|c| + 1)) ≤ 0 := by nlinarith
  exact max_eq_left this

theorem gradeBool_score_nonneg (c : Answer) (ok : Bool) :
    0 ≤ (gradeBool c ok).score := by
  cases ok <;> simp [gradeBool, maxScore]

theorem validateAnswer_score_nonneg (c s : Answer) :
    0 ≤ (validateAnswer c s).score := by
  unfold validateAnswer
  repeat' split
  all_goals simp only [gradeNumeric, gradeBool, ungradableResult]
  all_goals try (split <;> norm_num [maxScore])
  all_goals try norm_num
  all_goals exact numericScore_nonneg _ _ _

/-! ## Helper lemmas about multiple-choice lists and the solver -/

theorem numericCorrect_zero_ne (q s : ℚ) (h : s ≠ q) :
    numericCorrect q s 0 = false := by
  cases hb : numericCorrect q s 0
  · rfl
  · exact absurd ((numericCorrect_zero_iff q s).mp hb) h

theorem mcChoices_self_mem (c : Answer) (ds : List Answer) (k : Nat) :
    c ∈ mcChoices c ds k := by
  unfold mcChoices
  exact List.mem_append_right _ (List.mem_cons_self _ _)

theorem mcChoices_mem_cases {x c : Answer} {ds : List Answer} {k : Nat}
    (h : x ∈ mcChoices c ds k) : x = c ∨ x ∈ ds := by
  unfold mcChoices at h
  rcases List.mem_append.mp h with h | h
  · exact Or.inr (List.mem_of_mem_take h)
  · rcases List.mem_cons.mp h with h | h
    · exact Or.inl h
    · exact Or.inr (List.mem_of_mem_drop h)

theorem mcChoices_countP_eq_one (p : Answer → Bool) (c : Answer)
    (ds : List Answer) (k : Nat)
    (hc : p c = true) (hds : ∀ d ∈ ds, p d = false) :
    (mcChoices c ds k).countP p = 1 := by
  unfold mcChoices
  rw [List.countP_append, List.countP_cons]
  have htake : (ds.take k).countP p = 0 := by
    rw [List.countP_eq_zero]
    intro a ha
    simp [hds a (List.mem_of_mem_take ha)]
  have hdrop : (ds.drop k).countP p = 0 := by
    rw [List.countP_eq_zero]
    intro a ha
    simp [hds a (List.mem_of_mem_drop ha)]
  simp [htake, hdrop, hc]

/-- A canonical exact NUMERIC answer, as the generator emits it. -/
def numExact (q : ℚ) : Answer :=
  { value := AnswerValue.num q
    format := AnswerFormat.NUMERIC
    tolerance := some 0 }

theorem validate_numExact_self (q : ℚ) :
    (validateAnswer (numExact q) (numExact q)).isCorrect = true := by
  simp [validateAnswer, numExact, gradeNumeric,
    numericCorrect_self q 0 (le_refl 0)]

theorem validate_numExact_distractors (q : ℚ) :
    ∀ d ∈ mkDistractors (numExact q) q,
      (validateAnswer (numExact q) d).isCorrect = false := by
  intro d hd
  have h₁ : (q : ℚ) + 1 ≠ q := ne_of_gt (lt_add_one q)
  have h₂ : (q : ℚ) - 1 ≠ q := ne_of_lt (sub_one_lt q)
  have h₃ : (q : ℚ) + 10 ≠ q := ne_of_gt (by linarith)
  simp only [mkDistractors, List.mem_cons, List.not_mem_nil, or_false] at hd
  rcases hd with hd | hd | hd <;> subst hd <;>
    simp [validateAnswer, numExact, gradeNumeric,
      numericCorrect_zero_ne _ _ h₁, numericCorrect_zero_ne _ _ h₂,
      numericCorrect_zero_ne _ _ h₃]

theorem mc_invariant_core (q : ℚ) (k : Nat) :
    numExact q ∈ mcChoices (numExact q) (mkDistractors (numExact q) q) k
    ∧ (mcChoices (numExact q) (mkDistractors (numExact q) q) k).countP
        (fun x => (validateAnswer (numExact q) x).isCorrect) = 1
    ∧ (∀ x ∈ mcChoices (numExact q) (mkDistractors (numExact q) q) k,
        x.format = (numExact q).format)
    ∧ (∀ x ∈ mcChoices (numExact q) (mkDistractors (numExact q) q) k,
        x ≠ numExact q → (validateAnswer (numExact q) x).isCorrect = false) := by
  refine ⟨mcChoices_self_mem _ _ _, ?_, ?_, ?_⟩
  · exact mcChoices_countP_eq_one _ _ _ _ (validate_numExact_self q)
      (validate_numExact_distractors q)
  · intro x hx
    rcases mcChoices_mem_cases hx with h | h
    · rw [h]
    · simp only [mkDistractors, List.mem_cons, List.not_mem_nil, or_false] at h
      rcases h with h | h | h <;> subst h <;> rfl
  · intro x hx hne
    rcases mcChoices_mem_cases hx with h | h
    · exact absurd h hne
    · exact validate_numExact_distractors q x h

/-! ## Claims -/

/-- C1: For every `ProblemConfig` and every seed, `generate(config, seed)`
is deterministic — two calls (under any ambient fresh-seed supply) yield
bit-identical `GeneratedProblem`s, in particular byte-identical
`problemStatement` and canonical `Answer`; when the seed is absent the
engine mints and records the fresh seed on the result, and regenerating
from the recorded seed reproduces the identical result. -/
theorem generate_deterministic (config : ProblemConfig) (s f₁ f₂ g : Nat) :
    generate config (some s) f₁ = generate config (some s) f₂
    ∧ (generate config (some s) f₁).problem.problemStatement
        = (generate config (some s) f₂).problem.problemStatement
    ∧ (generate config (some s) f₁).problem.correctAnswer
        = (generate config (some s) f₂).problem.correctAnswer
    ∧ (generate config none g).seed = some g
    ∧ generate config (some g) f₁ = generate config none g :=
  ⟨rfl, rfl, rfl, rfl, rfl⟩

/-- C2: For every NUMERIC correct answer `c`, tolerance `t ≥ 0` and
submitted value `s`, the Validator reports `isCorrect = true` exactly
when `|s - c| ≤ t`. -/
theorem validate_numeric_iff_tolerance (c s t : ℚ) (h : 0 ≤ t) :
    (validateAnswer (numAns c (some t)) (numAns s none)).isCorrect = true
      ↔ |s - c| ≤ t := by
  simp [validateAnswer, numAns, gradeNumeric, numericCorrect]

/-- Witness for C2 at the spec's example: correct 3.14159, tolerance
0.01, submitted 3.15. -/
theorem validate_numeric_iff_tolerance_witness :
    (0 : ℚ) ≤ 1/100
    ∧ ((validateAnswer (numAns (314159/100000) (some (1/100)))
          (numAns (63/20) none)).isCorrect = true
        ↔ |(63/20 : ℚ) - 314159/100000| ≤ 1/100) :=
  ⟨by norm_num,
   validate_numeric_iff_tolerance (314159/100000) (63/20) (1/100) (by norm_num)⟩

/-- C5: For every NUMERIC answer, validating it against itself yields
`isCorrect = true` with the maximum score; the score is never negative
for any submission, decays monotonically as the deviation grows, and
reaches 0 once the deviation passes the tolerance by the full
normalization span. -/
theorem validate_score_decay (q s₁ s₂ s₃ : ℚ) (t : Option ℚ) (c sub : Answer)
    (ht : 0 ≤ t.getD 0)
    (hmono : |s₁ - q| ≤ |s₂ - q|)
    (hfar : t.getD 0 + (|q| + 1) ≤ |s₃ - q|) :
    ((validateAnswer (numAns q t) (numAns q t)).isCorrect = true
        ∧ (validateAnswer (numAns q t) (numAns q t)).score = maxScore)
    ∧ 0 ≤ (validateAnswer c sub).score
    ∧ (validateAnswer (numAns q t) (numAns s₂ t)).score
        ≤ (validateAnswer (numAns q t) (numAns s₁ t)).score
    ∧ (validateAnswer (numAns q t) (numAns s₃ t)).score = 0 := by
  refine ⟨⟨?_, ?_⟩, validateAnswer_score_nonneg c sub, ?_, ?_⟩
  · simp [validateAnswer, numAns, gradeNumeric, numericCorrect_self _ _ ht]
  · simp [validateAnswer, numAns, gradeNumeric, numericScore_self _ _ ht]
  · simp only [validateAnswer, numAns, gradeNumeric]
    exact numericScore_anti q s₁ s₂ _ hmono
  · simp only [validateAnswer, numAns, gradeNumeric]
    exact numericScore_far_zero q s₃ _ hfar

/-- Witness for C5 at the concrete answer 5 with tolerance 1 and
submissions 5, 6 and 20. -/
theorem validate_score_decay_witness :
    ((validateAnswer (numAns 5 (some 1)) (numAns 5 (some 1))).isCorrect = true
        ∧ (validateAnswer (numAns 5 (some 1)) (numAns 5 (some 1))).score = maxScore)
    ∧ 0 ≤ (validateAnswer (numAns 5 (some 1)) (numAns 7 (some 1))).score
    ∧ (validateAnswer (numAns 5 (some 1)) (numAns 6 (some 1))).score
        ≤ (validateAnswer (numAns 5 (some 1)) (numAns 5 (some 1))).score
    ∧ (validateAnswer (numAns 5 (some 1)) (numAns 20 (some 1))).score = 0 :=
  validate_score_decay 5 5 6 20 (some 1) (numAns 5 (some 1)) (numAns 7 (some 1))
    (by norm_num)
    (by rw [show (5:ℚ) - 5 = 0 by norm_num, show (6:ℚ) - 5 = 1 by norm_num]
        norm_num)
    (by rw [show (20:ℚ) - 5 = 15 by norm_num, show |(5:ℚ)| = 5 by norm_num]
        norm_num)

/-- C6: Equation equivalence checking is symmetric — the Validator's
verdict is invariant under swapping the two equation answers — and at
the spec's example both `validate("x=5","5=x")` and
`validate("5=x","x=5")` report correct, because equivalence is decided
by matching normalized canonical forms rather than comparing strings. -/
theorem validate_equation_symmetric (s₁ s₂ : String) :
    (validateAnswer (eqAns s₁) (eqAns s₂)).isCorrect
        = (validateAnswer (eqAns s₂) (eqAns s₁)).isCorrect
    ∧ (validateAnswer (eqAns "x=5") (eqAns "5=x")).isCorrect = true
    ∧ (validateAnswer (eqAns "5=x") (eqAns "x=5")).isCorrect = true := by
  have hx5 : normalizeEquation "x=5" = some (1, -5) := by
    have h : parseEquation "x=5" = some (Expr.varX, Expr.num 5) := by decide
    rw [normalizeEquation, h]
    norm_num [canonEquation, linCombo, Option.bind]
  have h5x : normalizeEquation "5=x" = some (1, -5) := by
    have h : parseEquation "5=x" = some (Expr.num 5, Expr.varX) := by decide
    rw [normalizeEquation, h]
    norm_num [canonEquation, linCombo, Option.bind]
  refine ⟨?_, ?_, ?_⟩
  · simp only [validateAnswer, eqAns, getStr, Option.some_bind]
    cases h₁ : normalizeEquation s₁ <;> cases h₂ : normalizeEquation s₂ <;>
      simp [gradeBool, ungradableResult]
    exact eq_comm
  · simp [validateAnswer, eqAns, getStr, hx5, h5x, gradeBool]
  · simp [validateAnswer, eqAns, getStr, hx5, h5x, gradeBool]

/-- C7: the Validator is total on its error paths — a submission whose
equation expression is malformed yields the deterministic ungradable
result (the `ParseError` is surfaced as the verdict "ungradable", never
as the verdict "incorrect"). -/
theorem validate_malformed_ungradable (correct sub : Answer) (s : String)
    (hf : correct.format = AnswerFormat.EQUATION)
    (hv : sub.value = AnswerValue.str s)
    (hp : parseEquation s = none) :
    validateAnswer correct sub = ungradableResult correct
    ∧ (validateAnswer correct sub).feedback = "ungradable"
    ∧ (validateAnswer correct sub).feedback ≠ "incorrect" := by
  have hn : (getStr sub.value).bind normalizeEquation = none := by
    simp [hv, getStr, normalizeEquation, hp]
  have hmain : validateAnswer correct sub = ungradableResult correct := by
    unfold validateAnswer
    rw [hf, hn]
    cases hc : (getStr correct.value).bind normalizeEquation <;> simp
  refine ⟨hmain, ?_, ?_⟩ <;> rw [hmain] <;> simp [ungradableResult]

/-- Witness for C7: the malformed submission "x+" against the canonical
equation "x=5". -/
theorem validate_malformed_ungradable_witness :
    validateAnswer (eqAns "x=5") (eqAns "x+") = ungradableResult (eqAns "x=5")
    ∧ (validateAnswer (eqAns "x=5") (eqAns "x+")).feedback = "ungradable"
    ∧ (validateAnswer (eqAns "x=5") (eqAns "x+")).feedback ≠ "incorrect" :=
  validate_malformed_ungradable (eqAns "x=5") (eqAns "x+") "x+" rfl rfl (by decide)

/-- C3: For every generated problem the Solver's recomputed
`finalAnswer` is equivalence-equal (§4.1) to the generator-supplied
`correctAnswer`, so the cross-check publishes it; and for any problem,
the cross-check raises `SolutionMismatchError` exactly when the Solver
succeeds with a non-matching answer, and a problem is unpublished
exactly when the cross-check raises some error. -/
theorem solver_self_check (config : ProblemConfig) (seed : Option Nat)
    (f : Nat) (p : Problem) :
    (∃ sol, solve (generate config seed f).problem = some sol
        ∧ answersMatch sol.finalAnswer
            (generate config seed f).problem.correctAnswer = true)
    ∧ published (generate config seed f).problem = true
    ∧ (crossCheck p = Except.error EngineError.SolutionMismatchError
        ↔ ∃ sol, solve p = some sol
            ∧ answersMatch sol.finalAnswer p.correctAnswer = false)
    ∧ (published p = false ↔ ∃ err, crossCheck p = Except.error err) := by
  have hmatch :
      ∃ sol, solve (generate config seed f).problem = some sol
        ∧ answersMatch sol.finalAnswer
            (generate config seed f).problem.correctAnswer = true := by
    refine ⟨_, rfl, ?_⟩
    simp [generate, generateCore, solve, evalExpr, answersMatch, numericCorrect]
  obtain ⟨sol, hs, hm⟩ := hmatch
  refine ⟨⟨sol, hs, hm⟩, ?_, ?_, ?_⟩
  · simp [published, crossCheck, hs, hm]
  · cases hsp : solve p with
    | none => simp [crossCheck, hsp]
    | some sol' =>
      cases hmm : answersMatch sol'.finalAnswer p.correctAnswer <;>
        simp [crossCheck, hsp, hmm]
  · cases hsp : solve p with
    | none => simp [published, crossCheck, hsp]
    | some sol' =>
      cases hmm : answersMatch sol'.finalAnswer p.correctAnswer <;>
        simp [published, crossCheck, hsp, hmm]

/-- C4: For every generated problem with `allowMultipleChoice`, the
alternatives are present, contain the correct answer, exactly one of
them validates as correct under the Validator's equivalence rule, all
share the correct answer's format, and every distractor (alternative
other than the correct answer) is not equivalence-equal to it. -/
theorem generated_mc_invariant (config : ProblemConfig) (seed : Option Nat)
    (f : Nat) (hmc : config.allowMultipleChoice = true) :
    ∃ alts, (generate config seed f).problem.alternatives = some alts
      ∧ (generate config seed f).problem.correctAnswer ∈ alts
      ∧ alts.countP (fun x =>
          (validateAnswer (generate config seed f).problem.correctAnswer x).isCorrect) = 1
      ∧ (∀ x ∈ alts, x.format = (generate config seed f).problem.correctAnswer.format)
      ∧ (∀ x ∈ alts, x ≠ (generate config seed f).problem.correctAnswer →
          (validateAnswer (generate config seed f).problem.correctAnswer x).isCorrect
            = false) := by
  obtain ⟨hmem, hcount, hfmt, hdis⟩ :=
    mc_invariant_core
      (((lcgNext (seed.getD f) % operandBound config.difficulty + 1 : Nat) : ℚ)
        + ((lcgNext (lcgNext (seed.getD f)) % operandBound config.difficulty + 1 : Nat) : ℚ))
      (lcgNext (lcgNext (lcgNext (seed.getD f))) % 4)
  refine ⟨_, ?_, hmem, hcount, hfmt, hdis⟩
  simp [generate, generateCore, hmc, numExact, mkDistractors]

/-- Witness for C4 at a concrete multiple-choice configuration. -/
theorem generated_mc_invariant_witness :
    ∃ alts,
      (generate
          { ptype := ProblemType.ARITHMETIC
            difficulty := DifficultyLevel.BEGINNER
            quantity := 1
            allowMultipleChoice := true } (some 42) 0).problem.alternatives = some alts
      ∧ (generate
          { ptype := ProblemType.ARITHMETIC
            difficulty := DifficultyLevel.BEGINNER
            quantity := 1
            allowMultipleChoice := true } (some 42) 0).problem.correctAnswer ∈ alts
      ∧ alts.countP (fun x =>
          (validateAnswer
            (generate
              { ptype := ProblemType.ARITHMETIC
                difficulty := DifficultyLevel.BEGINNER
                quantity := 1
                allowMultipleChoice := true } (some 42) 0).problem.correctAnswer
            x).isCorrect) = 1
      ∧ (∀ x ∈ alts, x.format =
          (generate
            { ptype := ProblemType.ARITHMETIC
              difficulty := DifficultyLevel.BEGINNER
              quantity := 1
              allowMultipleChoice := true } (some 42) 0).problem.correctAnswer.format)
      ∧ (∀ x ∈ alts, x ≠
          (generate
            { ptype := ProblemType.ARITHMETIC
              difficulty := DifficultyLevel.BEGINNER
              quantity := 1
              allowMultipleChoice := true } (some 42) 0).problem.correctAnswer →
          (validateAnswer
            (generate
              { ptype := ProblemType.ARITHMETIC
                difficulty := DifficultyLevel.BEGINNER
                quantity := 1
                allowMultipleChoice := true } (some 42) 0).problem.correctAnswer
            x).isCorrect = false) :=
  generated_mc_invariant
    { ptype := ProblemType.ARITHMETIC
      difficulty := DifficultyLevel.BEGINNER
      quantity := 1
      allowMultipleChoice := true } (some 42) 0 rfl

/-- C8: the §4.5 attempt state machine — a step enters `InProgress` only
from `Created` on an answer submission (with problems still left),
enters `Completed` only from a live state when every problem has a
submitted answer or the time limit elapses, enters `Abandoned` only from
`InProgress` on session expiry with incomplete answers, and the terminal
states `Completed`/`Abandoned` never change again. -/
theorem attempt_state_machine (a : ProblemAttempt) (e : AttemptEvent) (n t : Nat) :
    (((stepAttempt a e).state = AttemptState.InProgress
        ∧ a.state ≠ AttemptState.InProgress)
      ↔ (a.state = AttemptState.Created ∧ e = AttemptEvent.submitAnswer
          ∧ a.answered + 1 < a.total))
    ∧ (((stepAttempt a e).state = AttemptState.Completed
        ∧ a.state ≠ AttemptState.Completed)
      ↔ ((a.state = AttemptState.Created ∨ a.state = AttemptState.InProgress)
          ∧ ((e = AttemptEvent.submitAnswer ∧ a.total ≤ a.answered + 1)
              ∨ (a.state = AttemptState.InProgress
                  ∧ e = AttemptEvent.timeLimitElapsed))))
    ∧ (((stepAttempt a e).state = AttemptState.Abandoned
        ∧ a.state ≠ AttemptState.Abandoned)
      ↔ (a.state = AttemptState.InProgress ∧ e = AttemptEvent.sessionExpired
          ∧ a.answered < a.total))
    ∧ stepAttempt ⟨AttemptState.Completed, n, t⟩ e
        = ⟨AttemptState.Completed, n, t⟩
    ∧ stepAttempt ⟨AttemptState.Abandoned, n, t⟩ e
        = ⟨AttemptState.Abandoned, n, t⟩ := by
  rcases a with ⟨st, ans, tot⟩
  cases st <;> cases e <;>
    simp only [stepAttempt] <;>
    refine ⟨?_, ?_, ?_, ?_, ?_⟩ <;>
    first
      | rfl
      | trivial
      | (split_ifs <;> simp_all)
      | simp_all

/-- C9: the `/health` endpoint answers 200 with body status `healthy`
and mongodb status `connected` exactly when
`mongoose.connection.readyState` is 1, and 503 with `unhealthy` and
`disconnected` exactly otherwise. -/
theorem health_endpoint_spec (rs : Nat) (ts : String) (up : ℚ)
    (env : Option String) :
    (((healthHandler rs ts up env).1 = 200
        ∧ (healthHandler rs ts up env).2.status = "healthy"
        ∧ (healthHandler rs ts up env).2.mongodb.status = "connected")
      ↔ rs = 1)
    ∧ (((healthHandler rs ts up env).1 = 503
        ∧ (healthHandler rs ts up env).2.status = "unhealthy"
        ∧ (healthHandler rs ts up env).2.mongodb.status = "disconnected")
      ↔ rs ≠ 1) := by
  by_cases h : rs = 1 <;> simp [healthHandler, h]

/-- C10 counterexample: an error with `statusCode` set to 0 refutes
"the status is the error's statusCode when set": JavaScript's
`err.statusCode || 500` treats 0 as unset, so the handler answers 500,
not 0. -/
theorem error_handler_statusCode_zero :
    ({ name := "Error", message := "boom", statusCode := some 0 }
        : CustomError).statusCode = some 0
    ∧ ({ name := "Error", message := "boom", statusCode := some 0 }
        : CustomError).code ≠ some 11000
    ∧ ({ name := "Error", message := "boom", statusCode := some 0 }
        : CustomError).name ≠ "CastError"
    ∧ (errorHandler
        { name := "Error", message := "boom", statusCode := some 0 }).1 = 500
    ∧ (errorHandler
        { name := "Error", message := "boom", statusCode := some 0 }).1 ≠ 0 := by
  refine ⟨rfl, by simp, by simp [errorHandler], by simp [errorHandler, jsNumOr], by simp [errorHandler, jsNumOr]⟩

/-- C10 (amended): every response of the global error handler has
`success = false`; the status is 400 when the error's code is 11000 or
its name is `CastError`, and otherwise it is the error's `statusCode`
when set and nonzero (JavaScript-truthy) and 500 when unset or 0; in
the two validation branches the error label is `Validation Error`. -/
theorem error_handler_spec (err : CustomError) :
    (errorHandler err).2.success = false
    ∧ (errorHandler err).1 =
        (if err.code = some 11000 then 400
         else if err.name = "CastError" then 400
         else jsNumOr err.statusCode 500)
    ∧ (errorHandler err).2.error =
        (if err.code = some 11000 ∨ err.name = "CastError" then "Validation Error"
         else jsStrOr err.name "Internal Server Error") := by
  by_cases h₁ : err.code = some 11000
  · simp [errorHandler, h₁]
  · by_cases h₂ : err.name = "CastError" <;>
      simp [errorHandler, h₁, h₂]

end MathProbGen